import Mathlib

/-!
Shallow embedding of the verification aggregator and risk scoring engine of
the solana-token-fraud-detector backend.

Embedded source files:
* `src/services/verificationService.ts` — `aggregateVerificationResults`
* `src/core/TokenTrustAnalyzer.ts` — `analyzeToken` (error boundary),
  `calculateDynamicRiskScore`, `calculateVerificationWeight`,
  `isRecentlyLaunchedLegitimateToken`, `generateDynamicRecommendations`

JavaScript numbers are modelled as rationals (ℚ); `Math.round` is modelled
as round-half-up; optional / possibly-`undefined` values are modelled as
`Option`; JS truthiness of strings and numbers is modelled explicitly where
the source relies on it.  String interpolation of numeric values uses
`toString` on ℚ, which differs cosmetically from JS number formatting; no
verified property depends on the rendered digits.
-/

/-- JavaScript `Math.round`: round half toward positive infinity. -/
def jsRound (q : ℚ) : ℤ := ⌊q + 1/2⌋

/-- Verification level enum (`"OFFICIAL" | "ESTABLISHED" | "COMMUNITY" | "UNVERIFIED"`). -/
inductive VerificationLevel where
  | OFFICIAL
  | ESTABLISHED
  | COMMUNITY
  | UNVERIFIED
deriving DecidableEq, Repr

/-- Rendering of the level enum, as the string literals in the source. -/
def VerificationLevel.str : VerificationLevel → String
  | .OFFICIAL => "OFFICIAL"
  | .ESTABLISHED => "ESTABLISHED"
  | .COMMUNITY => "COMMUNITY"
  | .UNVERIFIED => "UNVERIFIED"

/-- `VerificationResult` of `verificationService.ts`. -/
structure VerificationResult where
  isVerified : Bool
  verificationLevel : VerificationLevel
  confidence : ℚ
  reasons : List String
  sources : List String
deriving DecidableEq, Repr

/-- The `details` payload a registry check may attach
(`{trustScore?, marketCapRank?, verified?}`); absent fields are `none`,
and `details.verified` is read by truthiness (absent ⇒ `false`). -/
structure CheckDetails where
  verified : Bool
  trustScore : Option ℚ
  marketCapRank : Option ℚ
deriving DecidableEq, Repr

/-- The value a single evidence check resolves to:
`{ verified: boolean; weight: number; source: string; details?: any }`. -/
structure CheckValue where
  verified : Bool
  weight : ℚ
  source : String
  details : Option CheckDetails
deriving DecidableEq, Repr

/-- One element of the `PromiseSettledResult` array handed to the aggregator. -/
inductive SettledCheck where
  | fulfilled (value : CheckValue)
  | rejected
deriving DecidableEq, Repr

/-- The metadata fields the aggregator reads (`name/symbol/image/description`). -/
structure TokenMetadataM where
  name : Option String
  symbol : Option String
  image : Option String
  description : Option String
deriving DecidableEq, Repr

/-- JS truthiness of a possibly-undefined string: present and non-empty. -/
def strTruthy : Option String → Bool
  | some s => s ≠ ""
  | none => false

/-- The hardcoded `criticalTokens` map of `aggregateVerificationResults`. -/
def criticalTokens (tokenAddress : String) : Option String :=
  if tokenAddress = "So11111111111111111111111111111111111111112" then
    some "Native SOL wrapper"
  else if tokenAddress = "EPjFWdd5AufqSSqeM2qN1xzybapC8G4wEGGkZwyTDt1v" then
    some "Circle USDC"
  else if tokenAddress = "Es9vMFrzaCERmJfrF4H2FYD4KCoNkY11McCe8BenwNYB" then
    some "Tether USDT"
  else
    none

/-- Contribution of one settled check to `totalWeight` (`result.weight || 0`,
only fulfilled checks are visited). -/
def checkWeight : SettledCheck → ℚ
  | .fulfilled v => v.weight
  | .rejected => 0

/-- Contribution of one settled check to `verifiedWeight`. -/
def checkVerifiedWeight : SettledCheck → ℚ
  | .fulfilled v => if v.verified then v.weight else 0
  | .rejected => 0

/-- `totalWeight` accumulated by the aggregator's `forEach` loop. -/
def totalWeightOf (checks : List SettledCheck) : ℚ :=
  (checks.map checkWeight).sum

/-- `verifiedWeight` accumulated by the aggregator's `forEach` loop. -/
def verifiedWeightOf (checks : List SettledCheck) : ℚ :=
  (checks.map checkVerifiedWeight).sum

/-- The qualitative-boost reasons pushed for a verified check's `details`. -/
def detailReasons (d : CheckDetails) : List String :=
  (if d.verified then ["Strictly verified listing"] else [])
    ++ (match d.trustScore with
        | some t => if t > 80 then ["High trust score"] else []
        | none => [])
    ++ (match d.marketCapRank with
        | some r => if r ≠ 0 ∧ r < 100 then ["Top 100 market cap"] else []
        | none => [])

/-- The reasons pushed for one settled check inside the `forEach` loop. -/
def checkReasons : SettledCheck → List String
  | .fulfilled v =>
      if v.verified then
        ("Verified on " ++ v.source)
          :: (match v.details with
              | some d => detailReasons d
              | none => [])
      else []
  | .rejected => []

/-- The sources pushed for one settled check inside the `forEach` loop. -/
def checkSources : SettledCheck → List String
  | .fulfilled v => if v.verified then [v.source] else []
  | .rejected => []

/-- The missing-metadata reasons pushed when `metadata && !isVerified`. -/
def metadataGapReasons (metadata : Option TokenMetadataM) (isVerified : Bool) :
    List String :=
  match metadata with
  | some md =>
      if isVerified then []
      else
        (if ¬ strTruthy md.name ∨ ¬ strTruthy md.symbol then
            ["Missing basic metadata"] else [])
          ++ (if ¬ strTruthy md.image then ["No token image"] else [])
          ++ (if ¬ strTruthy md.description then ["No token description"] else [])
  | none => []

/-- The threshold ladder assigning `(verificationLevel, isVerified)` from
`confidence` and `verifiedWeight` (the `if/else if` chain after the
confidence computation). -/
def levelVerifiedOf (confidence verifiedWeight : ℚ) : VerificationLevel × Bool :=
  if confidence ≥ 80 ∧ verifiedWeight ≥ 60 then (.OFFICIAL, true)
  else if confidence ≥ 60 ∧ verifiedWeight ≥ 40 then (.ESTABLISHED, true)
  else if confidence ≥ 40 ∧ verifiedWeight ≥ 20 then (.COMMUNITY, true)
  else (.UNVERIFIED, false)

/-- `VerificationService.aggregateVerificationResults`.  The critical-token
lookup short-circuits; otherwise the `forEach` accumulation of
`totalWeight` / `verifiedWeight` / `reasons` / `sources` is expressed as
independent folds over the same list, followed by the confidence formula and
the threshold ladder, the metadata gap reasons, and the default reason. -/
def aggregateVerificationResults (tokenAddress : String)
    (checks : List SettledCheck) (metadata : Option TokenMetadataM) :
    VerificationResult :=
  match criticalTokens tokenAddress with
  | some criticalToken =>
      { isVerified := true
        verificationLevel := .OFFICIAL
        confidence := 100
        reasons := ["Critical infrastructure: " ++ criticalToken]
        sources := ["System Registry"] }
  | none =>
      let totalWeight := totalWeightOf checks
      let verifiedWeight := verifiedWeightOf checks
      let confidence : ℚ :=
        if totalWeight > 0 then ((jsRound (verifiedWeight / totalWeight * 100) : ℤ) : ℚ)
        else 0
      let levelVerified : VerificationLevel × Bool :=
        levelVerifiedOf confidence verifiedWeight
      let reasons :=
        (checks.flatMap checkReasons) ++ metadataGapReasons metadata levelVerified.2
      let sources := checks.flatMap checkSources
      { isVerified := levelVerified.2
        verificationLevel := levelVerified.1
        confidence := confidence
        reasons := if reasons = [] then ["No verification sources found"] else reasons
        sources := sources }

/-- `MintInfo` fields read by the risk engine. -/
structure MintInfoM where
  mintRevoked : Bool
  freezeRevoked : Bool
deriving DecidableEq, Repr

/-- `TransactionAnalysis.timeSpan` fields read by the engine. -/
structure TimeSpanM where
  daysActive : ℚ
deriving DecidableEq, Repr

/-- `TransactionAnalysis.transferPatterns` fields read by the engine. -/
structure TransferPatternsM where
  totalTransfers : ℚ
deriving DecidableEq, Repr

/-- `TransactionAnalysis` fields read by the engine. -/
structure TransactionAnalysisM where
  timeSpan : TimeSpanM
  transferPatterns : TransferPatternsM
deriving DecidableEq, Repr

/-- Creator risk level enum (`"LOW" | "MEDIUM" | "HIGH"`). -/
inductive CreatorRiskLevel where
  | LOW
  | MEDIUM
  | HIGH
deriving DecidableEq, Repr

/-- `CreatorAnalysis.riskAssessment` fields read by the engine. -/
structure CreatorRiskAssessmentM where
  level : CreatorRiskLevel
deriving DecidableEq, Repr

/-- `CreatorAnalysis` fields read by the engine. -/
structure CreatorAnalysisM where
  riskAssessment : CreatorRiskAssessmentM
deriving DecidableEq, Repr

/-- `TokenMetadata` fields read by the engine (`tokenInfo.name`). -/
structure TokenInfoM where
  name : Option String
deriving DecidableEq, Repr

/-- `RugPullRisk` fields read by the engine. -/
structure RugPullRiskM where
  detected : Bool
  confidence : ℚ
  indicators : List String
deriving DecidableEq, Repr

/-- `LiquidityAnalysis` fields read by the engine. -/
structure LiquidityM where
  totalLiquidity : ℚ
deriving DecidableEq, Repr

/-- `VolumeAnalysis` fields read by the engine. -/
structure VolumeM where
  volume24h : ℚ
deriving DecidableEq, Repr

/-- Context enum of the volume-to-liquidity analysis. -/
inductive VLContext where
  | SUSPICIOUS
  | LEGITIMATE
  | NORMAL
deriving DecidableEq, Repr

/-- Rendering of the context enum, as the string literals in the source. -/
def VLContext.str : VLContext → String
  | .SUSPICIOUS => "SUSPICIOUS"
  | .LEGITIMATE => "LEGITIMATE"
  | .NORMAL => "NORMAL"

/-- `volumeLiquidityAnalysis` fields read by the engine. -/
structure VolumeLiquidityAnalysisM where
  ratio : ℚ
  context : VLContext
  explanation : String
deriving DecidableEq, Repr

/-- `LockStatus` fields read by the engine. -/
structure LockStatusM where
  isLocked : Bool
  lockPercentage : ℚ
  lockDuration : ℚ
deriving DecidableEq, Repr

/-- DEX snapshot fields read by the engine; `pools` is modelled by the
length of the pools array when the array is present. -/
structure DexDataM where
  rugPullRisk : Option RugPullRiskM
  liquidity : Option LiquidityM
  volume : Option VolumeM
  volumeLiquidityAnalysis : Option VolumeLiquidityAnalysisM
  lockStatus : Option LockStatusM
  pools : Option ℕ
deriving DecidableEq, Repr

/-- `twitterMetrics` fields read by the classifier. -/
structure TwitterMetricsM where
  verified : Bool
  followers : ℚ
deriving DecidableEq, Repr

/-- `telegramMetrics` / `discordMetrics` fields read by the classifier. -/
structure MembersM where
  members : ℚ
deriving DecidableEq, Repr

/-- `SocialMediaAnalysis` fields read by the classifier. -/
structure SocialMediaM where
  overallScore : ℚ
  twitterMetrics : Option TwitterMetricsM
  telegramMetrics : Option MembersM
  discordMetrics : Option MembersM
deriving DecidableEq, Repr

/-- The `analysis` fields `calculateDynamicRiskScore` and the heuristic
classifier read. -/
structure AnalysisIn where
  mintInfo : Option MintInfoM
  transactionData : Option TransactionAnalysisM
  creatorData : Option CreatorAnalysisM
  tokenInfo : Option TokenInfoM
deriving DecidableEq, Repr

/-- The `RiskFactors` weight table. -/
structure RiskFactorsM where
  MINT_AUTHORITY : ℚ
  FREEZE_AUTHORITY : ℚ
  TOKEN_AGE : ℚ
  TRANSACTION_VOLUME : ℚ
  CREATOR_BEHAVIOR : ℚ
  METADATA_QUALITY : ℚ
  LIQUIDITY_RISK : ℚ
  HOLDER_CONCENTRATION : ℚ
deriving DecidableEq, Repr

/-- `this.riskWeights` as set in the `TokenTrustAnalyzer` constructor. -/
def riskWeights : RiskFactorsM :=
  { MINT_AUTHORITY := 30
    FREEZE_AUTHORITY := 25
    TOKEN_AGE := 20
    TRANSACTION_VOLUME := 15
    CREATOR_BEHAVIOR := 15
    METADATA_QUALITY := 10
    LIQUIDITY_RISK := 25
    HOLDER_CONCENTRATION := 20 }

/-- The inline scam keyword list of the heuristic classifier. -/
def scamKeywords : List String :=
  ["inu", "moon", "safe", "elon", "doge", "shib", "pepe", "wojak"]

/-- `String.prototype.toLowerCase` (ASCII-adequate for the keyword list). -/
def strLower (s : String) : String := s.map Char.toLower

/-- Character-list version of "needle starts the haystack". -/
def charListStarts : List Char → List Char → Bool
  | [], _ => true
  | _ :: _, [] => false
  | a :: as, b :: bs => a = b && charListStarts as bs

/-- Character-list version of `String.prototype.includes`. -/
def charListHasSub (needle : List Char) : List Char → Bool
  | [] => charListStarts needle []
  | b :: bs => charListStarts needle (b :: bs) || charListHasSub needle bs

/-- `hay.includes(needle)`. -/
def strIncludes (hay needle : String) : Bool :=
  charListHasSub needle.toList hay.toList

/-- Signal 5's scam-pattern test: the token name, when truthy, contains a
scam keyword (case-insensitive substring). -/
def scamNameIndicator (tokenInfo : Option TokenInfoM) : Bool :=
  match tokenInfo with
  | some ti =>
      match ti.name with
      | some n =>
          if n ≠ "" then scamKeywords.any (fun kw => strIncludes (strLower n) kw)
          else false
      | none => false
  | none => false

/-- Signal 11's active-community test. -/
def hasActiveCommunity (s : SocialMediaM) : Bool :=
  (match s.telegramMetrics with
   | some t => decide (t.members > 1000)
   | none => false)
  || (match s.discordMetrics with
      | some d => decide (d.members > 500)
      | none => false)
  || (match s.twitterMetrics with
      | some t => decide (t.followers > 5000)
      | none => false)

/-- Signal 1: token age between 0.1 and 30 days (counted when transaction
data is present). -/
def signal1Age (a : AnalysisIn) (c : ℕ × ℕ) : ℕ × ℕ :=
  match a.transactionData with
  | some tx =>
      (if 0.1 ≤ tx.timeSpan.daysActive ∧ tx.timeSpan.daysActive ≤ 30
       then c.1 + 1 else c.1, c.2 + 1)
  | none => c

/-- Signal 2: at least 5 transfers (counted when transaction data is
present). -/
def signal2Transfers (a : AnalysisIn) (c : ℕ × ℕ) : ℕ × ℕ :=
  match a.transactionData with
  | some tx =>
      (if tx.transferPatterns.totalTransfers ≥ 5 then c.1 + 1 else c.1, c.2 + 1)
  | none => c

/-- Signal 3: truthy, non-placeholder name (counted when token info is
present). -/
def signal3Name (a : AnalysisIn) (c : ℕ × ℕ) : ℕ × ℕ :=
  match a.tokenInfo with
  | some ti =>
      (if strTruthy ti.name ∧ ti.name ≠ some "Unknown" then c.1 + 1 else c.1, c.2 + 1)
  | none => c

/-- Signal 4: liquidity > $100 (counted when the liquidity field is present
and truthy). -/
def signal4Liquidity (dexData : Option DexDataM) (c : ℕ × ℕ) : ℕ × ℕ :=
  match (dexData.bind (·.liquidity)).map (·.totalLiquidity) with
  | some v => if v ≠ 0 then (if v > 100 then c.1 + 1 else c.1, c.2 + 1) else c
  | none => c

/-- Signal 5: no obvious scam indicators (counted unconditionally). -/
def signal5Scam (a : AnalysisIn) (c : ℕ × ℕ) : ℕ × ℕ :=
  (if scamNameIndicator a.tokenInfo then c.1 else c.1 + 1, c.2 + 1)

/-- Signal 6: creator behavior not suspicious (counted when creator data is
present). -/
def signal6Creator (a : AnalysisIn) (c : ℕ × ℕ) : ℕ × ℕ :=
  match a.creatorData with
  | some cd =>
      (if cd.riskAssessment.level ≠ .HIGH then c.1 + 1 else c.1, c.2 + 1)
  | none => c

/-- Signal 7: 24h volume > $10 (counted when the volume field is present and
truthy). -/
def signal7Volume (dexData : Option DexDataM) (c : ℕ × ℕ) : ℕ × ℕ :=
  match (dexData.bind (·.volume)).map (·.volume24h) with
  | some v => if v ≠ 0 then (if v > 10 then c.1 + 1 else c.1, c.2 + 1) else c
  | none => c

/-- Signal 8: no rug pull indicators (counted when the rug-pull record is
present). -/
def signal8Rug (dexData : Option DexDataM) (c : ℕ × ℕ) : ℕ × ℕ :=
  match dexData.bind (·.rugPullRisk) with
  | some r => (if ¬ r.detected then c.1 + 1 else c.1, c.2 + 1)
  | none => c

/-- Signal 9: social score ≥ 50 (counted when social data is present). -/
def signal9Social (socialMediaData : Option SocialMediaM) (c : ℕ × ℕ) : ℕ × ℕ :=
  match socialMediaData with
  | some s => (if s.overallScore ≥ 50 then c.1 + 1 else c.1, c.2 + 1)
  | none => c

/-- Signal 10: verified Twitter account (counted only when verified). -/
def signal10Twitter (socialMediaData : Option SocialMediaM) (c : ℕ × ℕ) : ℕ × ℕ :=
  if (match socialMediaData.bind (·.twitterMetrics) with
      | some t => t.verified
      | none => false)
  then (c.1 + 1, c.2 + 1) else c

/-- Signal 11: active community (counted only when the threshold is met). -/
def signal11Community (socialMediaData : Option SocialMediaM) (c : ℕ × ℕ) : ℕ × ℕ :=
  match socialMediaData with
  | some s => if hasActiveCommunity s then (c.1 + 1, c.2 + 1) else c
  | none => c

/-- The `(positiveSignals, totalSignals)` counters accumulated by
`isRecentlyLaunchedLegitimateToken`, signal by signal in source order. -/
def heuristicCounts (a : AnalysisIn) (dexData : Option DexDataM)
    (socialMediaData : Option SocialMediaM) : ℕ × ℕ :=
  signal11Community socialMediaData
    (signal10Twitter socialMediaData
      (signal9Social socialMediaData
        (signal8Rug dexData
          (signal7Volume dexData
            (signal6Creator a
              (signal5Scam a
                (signal4Liquidity dexData
                  (signal3Name a
                    (signal2Transfers a
                      (signal1Age a (0, 0)))))))))))

/-- `confidence = (positiveSignals / totalSignals) * 100` (0 when no signal
was counted). -/
def heuristicConfidence (counts : ℕ × ℕ) : ℚ :=
  if counts.2 > 0 then ((counts.1 : ℚ) / (counts.2 : ℚ)) * 100 else 0

/-- `TokenTrustAnalyzer.isRecentlyLaunchedLegitimateToken`: recent (age
available and ≤ 30 days), at least 4 counted signals, confidence ≥ 60%. -/
def isRecentlyLaunchedLegitimateToken (a : AnalysisIn)
    (verificationResult : VerificationResult) (dexData : Option DexDataM)
    (socialMediaData : Option SocialMediaM) : Bool :=
  let counts := heuristicCounts a dexData socialMediaData
  let confidence := heuristicConfidence counts
  let isRecent :=
    match a.transactionData with
    | some tx => decide (tx.timeSpan.daysActive ≤ 30)
    | none => false
  let hasEnoughSignals := decide (counts.2 ≥ 4)
  let hasGoodConfidence := decide (confidence ≥ 60)
  isRecent && hasEnoughSignals && hasGoodConfidence

/-- Intermediate state of `calculateDynamicRiskScore`: the running
`totalScore` and the `factors` / `safetyFactors` lists. -/
structure ScoreAcc where
  score : ℚ
  factors : List String
  safetyFactors : List String
deriving DecidableEq, Repr

/-- Base weight table of `calculateVerificationWeight` (`weights[...] || 0`). -/
def levelBaseWeight : VerificationLevel → ℚ
  | .OFFICIAL => 50
  | .ESTABLISHED => 35
  | .COMMUNITY => 20
  | .UNVERIFIED => 0

/-- `TokenTrustAnalyzer.calculateVerificationWeight`. -/
def calculateVerificationWeight (verificationResult : VerificationResult) : ℤ :=
  jsRound (levelBaseWeight verificationResult.verificationLevel
    * (verificationResult.confidence / 100))

/-- The verification override / unverified-penalty block (the first
`if (verificationResult.isVerified)` of `calculateDynamicRiskScore`). -/
def verificationBlock (vr : VerificationResult) (isRecentlyLaunched : Bool)
    (acc : ScoreAcc) : ScoreAcc :=
  if vr.isVerified then
    let verificationWeight := calculateVerificationWeight vr
    let score1 := max 0 (acc.score - (verificationWeight : ℚ))
    let safety1 := acc.safetyFactors
      ++ ["Dynamically verified: " ++ vr.verificationLevel.str ++ " ("
            ++ toString vr.confidence ++ "% confidence)"]
      ++ vr.sources.map (fun source => "Listed on " ++ source)
    if vr.verificationLevel = .OFFICIAL then
      { score := max 0 (score1 - 40)
        factors := acc.factors
        safetyFactors := safety1 ++ ["Official verification - maximum trust level"] }
    else
      { score := score1, factors := acc.factors, safetyFactors := safety1 }
  else
    if isRecentlyLaunched then
      let reducedPenalty := max 5 (15 - vr.confidence * 0.1)
      { score := acc.score + reducedPenalty
        factors := acc.factors
          ++ ["Token not verified on major platforms (recently launched)"]
        safetyFactors := acc.safetyFactors
          ++ ["Recently launched token - verification pending"] }
    else
      let unverifiedPenalty := 30 - vr.confidence * 0.2
      { score := acc.score + max 10 unverifiedPenalty
        factors := acc.factors ++ ["Token not verified on major platforms"]
        safetyFactors := acc.safetyFactors }

/-- Mint authority risk block. -/
def mintAuthorityBlock (a : AnalysisIn) (vr : VerificationResult)
    (isRecentlyLaunched : Bool) (acc : ScoreAcc) : ScoreAcc :=
  match a.mintInfo with
  | some mi =>
      if ¬ mi.mintRevoked then
        let mintRisk :=
          if vr.isVerified then riskWeights.MINT_AUTHORITY * 0.2
          else if isRecentlyLaunched then riskWeights.MINT_AUTHORITY * 0.5
          else riskWeights.MINT_AUTHORITY
        let factor :=
          if vr.isVerified then "Active mint authority (but token is verified)"
          else if isRecentlyLaunched then
            "Active mint authority (recently launched - monitoring)"
          else "Active mint authority - unlimited supply possible"
        { score := acc.score + mintRisk
          factors := acc.factors ++ [factor]
          safetyFactors := acc.safetyFactors }
      else
        { acc with safetyFactors := acc.safetyFactors
            ++ ["Mint authority revoked - supply is fixed"] }
  | none => acc

/-- Freeze authority risk block. -/
def freezeAuthorityBlock (a : AnalysisIn) (vr : VerificationResult)
    (isRecentlyLaunched : Bool) (acc : ScoreAcc) : ScoreAcc :=
  match a.mintInfo with
  | some mi =>
      if ¬ mi.freezeRevoked then
        let freezeRisk :=
          if vr.isVerified then riskWeights.FREEZE_AUTHORITY * 0.2
          else if isRecentlyLaunched then riskWeights.FREEZE_AUTHORITY * 0.5
          else riskWeights.FREEZE_AUTHORITY
        let factor :=
          if vr.isVerified then "Active freeze authority (but token is verified)"
          else if isRecentlyLaunched then
            "Active freeze authority (recently launched - monitoring)"
          else "Active freeze authority - accounts can be frozen"
        { score := acc.score + freezeRisk
          factors := acc.factors ++ [factor]
          safetyFactors := acc.safetyFactors }
      else
        { acc with safetyFactors := acc.safetyFactors
            ++ ["Freeze authority revoked - accounts protected"] }
  | none => acc

/-- Token age risk block. -/
def tokenAgeBlock (a : AnalysisIn) (vr : VerificationResult)
    (isRecentlyLaunched : Bool) (acc : ScoreAcc) : ScoreAcc :=
  match a.transactionData with
  | some tx =>
      let daysActive := tx.timeSpan.daysActive
      if daysActive < 1 then
        let ageRisk :=
          if vr.isVerified then riskWeights.TOKEN_AGE * 0.3
          else if isRecentlyLaunched then riskWeights.TOKEN_AGE * 0.4
          else riskWeights.TOKEN_AGE
        let factor :=
          if isRecentlyLaunched then "Very new token (recently launched - monitoring)"
          else "Very new token - high risk"
        { score := acc.score + ageRisk
          factors := acc.factors ++ [factor]
          safetyFactors := acc.safetyFactors }
      else if daysActive < 7 then
        let ageRisk0 := riskWeights.TOKEN_AGE * 0.7
        let ageRisk :=
          if vr.isVerified then ageRisk0 * 0.2
          else if isRecentlyLaunched then ageRisk0 * 0.5
          else ageRisk0
        let factor :=
          if isRecentlyLaunched then "New token (recently launched - monitoring)"
          else "New token - moderate risk"
        { score := acc.score + ageRisk
          factors := acc.factors ++ [factor]
          safetyFactors := acc.safetyFactors }
      else if daysActive > 30 then
        { acc with safetyFactors := acc.safetyFactors
            ++ ["Established token - lower risk"] }
      else acc
  | none => acc

/-- Transaction volume risk block. -/
def transactionVolumeBlock (a : AnalysisIn) (vr : VerificationResult)
    (isRecentlyLaunched : Bool) (acc : ScoreAcc) : ScoreAcc :=
  match a.transactionData with
  | some tx =>
      let totalTransfers := tx.transferPatterns.totalTransfers
      if totalTransfers < 10 then
        let volumeRisk :=
          if vr.isVerified then riskWeights.TRANSACTION_VOLUME * 0.3
          else if isRecentlyLaunched then riskWeights.TRANSACTION_VOLUME * 0.4
          else riskWeights.TRANSACTION_VOLUME
        let factor :=
          if isRecentlyLaunched then
            "Low transaction volume (recently launched - monitoring)"
          else "Low transaction volume - suspicious"
        { score := acc.score + volumeRisk
          factors := acc.factors ++ [factor]
          safetyFactors := acc.safetyFactors }
      else if totalTransfers > 100 then
        { acc with safetyFactors := acc.safetyFactors
            ++ ["High transaction volume - active trading"] }
      else acc
  | none => acc

/-- Creator behavior risk block. -/
def creatorBehaviorBlock (a : AnalysisIn) (vr : VerificationResult)
    (isRecentlyLaunched : Bool) (acc : ScoreAcc) : ScoreAcc :=
  match a.creatorData with
  | some cd =>
      if cd.riskAssessment.level = .HIGH then
        let creatorRisk :=
          if vr.isVerified then riskWeights.CREATOR_BEHAVIOR * 0.3
          else if isRecentlyLaunched then riskWeights.CREATOR_BEHAVIOR * 0.5
          else riskWeights.CREATOR_BEHAVIOR
        let factor :=
          if isRecentlyLaunched then
            "Suspicious creator behavior (recently launched - monitoring)"
          else "Suspicious creator behavior detected"
        { score := acc.score + creatorRisk
          factors := acc.factors ++ [factor]
          safetyFactors := acc.safetyFactors }
      else if cd.riskAssessment.level = .LOW then
        { acc with safetyFactors := acc.safetyFactors
            ++ ["Normal creator behavior patterns"] }
      else acc
  | none => acc

/-- Metadata quality risk block. -/
def metadataQualityBlock (a : AnalysisIn) (vr : VerificationResult)
    (isRecentlyLaunched : Bool) (acc : ScoreAcc) : ScoreAcc :=
  match a.tokenInfo with
  | some ti =>
      if ¬ strTruthy ti.name ∨ ti.name = some "Unknown" then
        let metadataRisk :=
          if vr.isVerified then riskWeights.METADATA_QUALITY * 0.2
          else if isRecentlyLaunched then riskWeights.METADATA_QUALITY * 0.5
          else riskWeights.METADATA_QUALITY
        let factor :=
          if isRecentlyLaunched then
            "Poor metadata quality (recently launched - monitoring)"
          else "Poor metadata quality"
        { score := acc.score + metadataRisk
          factors := acc.factors ++ [factor]
          safetyFactors := acc.safetyFactors }
      else
        { acc with safetyFactors := acc.safetyFactors ++ ["Good metadata quality"] }
  | none => acc

/-- Rug pull DEX risk block (always evaluated). -/
def rugPullBlock (dexData : Option DexDataM) (vr : VerificationResult)
    (acc : ScoreAcc) : ScoreAcc :=
  match dexData.bind (·.rugPullRisk) with
  | some r =>
      if r.detected then
        let rugPullRisk :=
          if vr.isVerified then riskWeights.LIQUIDITY_RISK * 0.3
          else riskWeights.LIQUIDITY_RISK
        { score := acc.score + rugPullRisk
          factors := acc.factors
            ++ ["Rug pull risk detected (" ++ toString r.confidence ++ "% confidence)"]
            ++ r.indicators.map (fun indicator => "DEX: " ++ indicator)
          safetyFactors := acc.safetyFactors }
      else acc
  | none => acc

/-- Low liquidity DEX risk block (always evaluated). -/
def lowLiquidityBlock (dexData : Option DexDataM) (vr : VerificationResult)
    (acc : ScoreAcc) : ScoreAcc :=
  match (dexData.bind (·.liquidity)).map (·.totalLiquidity) with
  | some v =>
      if v < 10000 then
        let liquidityRisk :=
          if vr.isVerified then riskWeights.LIQUIDITY_RISK * 0.4
          else riskWeights.LIQUIDITY_RISK * 0.8
        { score := acc.score + liquidityRisk
          factors := acc.factors ++ ["Very low liquidity (< $10k)"]
          safetyFactors := acc.safetyFactors }
      else if v < 50000 then
        let liquidityRisk :=
          if vr.isVerified then riskWeights.LIQUIDITY_RISK * 0.2
          else riskWeights.LIQUIDITY_RISK * 0.5
        { score := acc.score + liquidityRisk
          factors := acc.factors ++ ["Low liquidity (< $50k)"]
          safetyFactors := acc.safetyFactors }
      else acc
  | none => acc

/-- Volume-to-liquidity DEX block, with the fallback ratio test when the
enhanced analysis is absent (always evaluated). -/
def volumeLiquidityBlock (dexData : Option DexDataM) (vr : VerificationResult)
    (acc : ScoreAcc) : ScoreAcc :=
  match dexData.bind (·.volumeLiquidityAnalysis) with
  | some vla =>
      match vla.context with
      | .SUSPICIOUS =>
          let volumeRisk :=
            if vr.isVerified then riskWeights.LIQUIDITY_RISK * 0.3
            else riskWeights.LIQUIDITY_RISK * 0.8
          { score := acc.score + volumeRisk
            factors := acc.factors
              ++ ["Suspicious volume-to-liquidity pattern: " ++ vla.explanation]
            safetyFactors := acc.safetyFactors }
      | .LEGITIMATE =>
          { acc with safetyFactors := acc.safetyFactors
              ++ ["Legitimate volume-to-liquidity pattern: " ++ vla.explanation] }
      | .NORMAL =>
          { acc with factors := acc.factors
              ++ ["Volume-to-liquidity ratio: " ++ toString vla.ratio
                    ++ "x (" ++ vla.context.str ++ ")"] }
  | none =>
      let liqOr0 : ℚ :=
        match (dexData.bind (·.liquidity)).map (·.totalLiquidity) with
        | some v => if v ≠ 0 then v else 0
        | none => 0
      match (dexData.bind (·.volume)).map (·.volume24h) with
      | some v =>
          if v > liqOr0 * 5 then
            let volumeRisk :=
              if vr.isVerified then riskWeights.LIQUIDITY_RISK * 0.2
              else riskWeights.LIQUIDITY_RISK * 0.6
            { score := acc.score + volumeRisk
              factors := acc.factors ++ ["High volume relative to liquidity"]
              safetyFactors := acc.safetyFactors }
          else acc
      | none => acc

/-- Strong liquidity safety block. -/
def strongLiquidityBlock (dexData : Option DexDataM) (acc : ScoreAcc) : ScoreAcc :=
  match (dexData.bind (·.liquidity)).map (·.totalLiquidity) with
  | some v =>
      if v > 100000 then
        { acc with safetyFactors := acc.safetyFactors
            ++ ["Strong liquidity: $" ++ toString v ++ " USD"] }
      else acc
  | none => acc

/-- Locked liquidity safety block. -/
def lockStatusBlock (dexData : Option DexDataM) (acc : ScoreAcc) : ScoreAcc :=
  match dexData.bind (·.lockStatus) with
  | some ls =>
      if ls.isLocked then
        { acc with safetyFactors := acc.safetyFactors
            ++ ["Liquidity locked: " ++ toString ls.lockPercentage
                  ++ "% for " ++ toString ls.lockDuration ++ " days"] }
      else acc
  | none => acc

/-- Multiple pools safety block. -/
def poolsBlock (dexData : Option DexDataM) (acc : ScoreAcc) : ScoreAcc :=
  match dexData.bind (·.pools) with
  | some n =>
      if n > 1 then
        { acc with safetyFactors := acc.safetyFactors
            ++ ["Multiple DEX pools: " ++ toString n ++ " exchanges"] }
      else acc
  | none => acc

/-- Risk level enum of `TokenAnalysis`. -/
inductive RiskLevel where
  | LOW
  | MEDIUM
  | HIGH
  | CRITICAL
deriving DecidableEq, Repr

/-- The verification-dependent score-to-level threshold table at the end of
`calculateDynamicRiskScore` (applied to the unrounded `totalScore`). -/
def riskLevelFor (vr : VerificationResult) (totalScore : ℚ) : RiskLevel :=
  if vr.isVerified then
    if vr.verificationLevel = .OFFICIAL then
      if totalScore ≥ 25 then .MEDIUM else .LOW
    else if vr.verificationLevel = .ESTABLISHED then
      if totalScore ≥ 35 then .HIGH
      else if totalScore ≥ 20 then .MEDIUM
      else .LOW
    else
      if totalScore ≥ 45 then .HIGH
      else if totalScore ≥ 30 then .MEDIUM
      else .LOW
  else
    if totalScore ≥ 80 then .CRITICAL
    else if totalScore ≥ 60 then .HIGH
    else if totalScore ≥ 40 then .MEDIUM
    else .LOW

/-- `TokenTrustAnalyzer.generateDynamicRecommendations` (called with the
unrounded `totalScore`). -/
def generateDynamicRecommendations (riskScore : ℚ) (vr : VerificationResult)
    (isRecentlyLaunched : Bool) : List String :=
  if vr.isVerified then
    ["✅ VERIFIED: " ++ vr.verificationLevel.str ++ " verification level",
     "🔍 Verified on: " ++ String.intercalate ", " vr.sources]
      ++ (if riskScore > 20 then
            ["⚠️ Note: Despite verification, some risk factors remain"]
          else [])
  else if isRecentlyLaunched then
    ["🆕 RECENTLY LAUNCHED: Token shows positive signals",
     "📈 Monitor for verification on major platforms",
     "🔍 Check for ongoing development and community activity"]
      ++ (if riskScore ≥ 60 then
            ["⚠️ HIGH RISK: Exercise caution despite positive signals"]
          else if riskScore ≥ 40 then
            ["⚠️ MODERATE RISK: Monitor closely for red flags"]
          else
            ["✅ LOW RISK: Promising new token - continue monitoring"])
      ++ ["💡 Tip: Wait for verification before major investments"]
  else
    if riskScore ≥ 80 then ["🚨 EXTREME RISK: Avoid this token completely"]
    else if riskScore ≥ 60 then ["⚠️ HIGH RISK: Exercise extreme caution"]
    else ["⚠️ UNVERIFIED: Token lacks verification but may be legitimate"]

/-- The risk assessment fields `calculateDynamicRiskScore` writes back into
`analysis`. -/
structure RiskAssessmentM where
  riskScore : ℤ
  riskLevel : RiskLevel
  riskFactors : List String
  safetyFactors : List String
  recommendations : List String
deriving DecidableEq, Repr

/-- `TokenTrustAnalyzer.calculateDynamicRiskScore`: the sequential `+=` /
`push` updates are threaded through `ScoreAcc` block by block, in source
order; the middle six blocks run only under the
`!isVerified || level !== "OFFICIAL"` gate. -/
def calculateDynamicRiskScore (a : AnalysisIn) (vr : VerificationResult)
    (dexData : Option DexDataM) (socialMediaData : Option SocialMediaM) :
    RiskAssessmentM :=
  let isRecentlyLaunched := isRecentlyLaunchedLegitimateToken a vr dexData socialMediaData
  let acc0 : ScoreAcc := { score := 0, factors := [], safetyFactors := [] }
  let acc1 := verificationBlock vr isRecentlyLaunched acc0
  let acc2 :=
    if ¬ vr.isVerified ∨ vr.verificationLevel ≠ .OFFICIAL then
      metadataQualityBlock a vr isRecentlyLaunched
        (creatorBehaviorBlock a vr isRecentlyLaunched
          (transactionVolumeBlock a vr isRecentlyLaunched
            (tokenAgeBlock a vr isRecentlyLaunched
              (freezeAuthorityBlock a vr isRecentlyLaunched
                (mintAuthorityBlock a vr isRecentlyLaunched acc1)))))
    else acc1
  let acc3 :=
    poolsBlock dexData
      (lockStatusBlock dexData
        (strongLiquidityBlock dexData
          (volumeLiquidityBlock dexData vr
            (lowLiquidityBlock dexData vr
              (rugPullBlock dexData vr acc2)))))
  { riskScore := jsRound acc3.score
    riskLevel := riskLevelFor vr acc3.score
    riskFactors := acc3.factors
    safetyFactors := acc3.safetyFactors
    recommendations := generateDynamicRecommendations acc3.score vr isRecentlyLaunched }

/-- The awaited, fallible steps of `analyzeToken` (data fetched from
collaborators); an `Except.error` models a thrown exception. -/
structure FetchSteps where
  tokenInfo : Except Unit (Option TokenInfoM)
  mintInfo : Except Unit (Option MintInfoM)
  verification : Except Unit VerificationResult
  whitelistInfo : Except Unit Unit
  transactionData : Except Unit (Option TransactionAnalysisM)
  dexData : Except Unit (Option DexDataM)
  socialMediaData : Except Unit (Option SocialMediaM)

/-- The sequence of awaits in `analyzeToken`'s `try` block, in source order;
`getWhitelistInfo` is awaited only for verified tokens, and `analyzeCreator`
always returns `null`. -/
def runAnalysisSteps (s : FetchSteps) :
    Except Unit (AnalysisIn × VerificationResult × Option DexDataM × Option SocialMediaM) := do
  let tokenInfo ← s.tokenInfo
  let mintInfo ← s.mintInfo
  let vr ← s.verification
  let _ ← if vr.isVerified then s.whitelistInfo else pure ()
  let transactionData ← s.transactionData
  let creatorData : Option CreatorAnalysisM := none
  let dexData ← s.dexData
  let socialMediaData ← s.socialMediaData
  pure ({ mintInfo := mintInfo
          transactionData := transactionData
          creatorData := creatorData
          tokenInfo := tokenInfo }, vr, dexData, socialMediaData)

/-- The fixed fail-safe assessment produced by `analyzeToken`'s `catch`
block on the initial analysis record. -/
def failSafeAssessment : RiskAssessmentM :=
  { riskScore := 75
    riskLevel := .HIGH
    riskFactors := ["Technical analysis failed"]
    safetyFactors := []
    recommendations := [] }

/-- `TokenTrustAnalyzer.analyzeToken`, restricted to the risk assessment
fields of its result: run the fallible steps, score on success, and fall
back to the fixed fail-safe assessment when any step throws. -/
def analyzeToken (s : FetchSteps) : RiskAssessmentM :=
  match runAnalysisSteps s with
  | .ok (a, vr, dexData, socialMediaData) =>
      calculateDynamicRiskScore a vr dexData socialMediaData
  | .error _ => failSafeAssessment

/-- Availability of the age signal's data (signal 1). -/
def sAvailAge (a : AnalysisIn) : Bool := a.transactionData.isSome

/-- Availability of the transfer-count signal's data (signal 2). -/
def sAvailTransfers (a : AnalysisIn) : Bool := a.transactionData.isSome

/-- Availability of the name signal's data (signal 3). -/
def sAvailName (a : AnalysisIn) : Bool := a.tokenInfo.isSome

/-- Availability (truthiness) of the liquidity signal's data (signal 4). -/
def sAvailLiquidity (dexData : Option DexDataM) : Bool :=
  match (dexData.bind (·.liquidity)).map (·.totalLiquidity) with
  | some v => decide (v ≠ 0)
  | none => false

/-- Availability of the creator signal's data (signal 6). -/
def sAvailCreator (a : AnalysisIn) : Bool := a.creatorData.isSome

/-- Availability (truthiness) of the volume signal's data (signal 7). -/
def sAvailVolume (dexData : Option DexDataM) : Bool :=
  match (dexData.bind (·.volume)).map (·.volume24h) with
  | some v => decide (v ≠ 0)
  | none => false

/-- Availability of the rug-pull signal's data (signal 8). -/
def sAvailRug (dexData : Option DexDataM) : Bool :=
  (dexData.bind (·.rugPullRisk)).isSome

/-- Availability of the social-score signal's data (signal 9). -/
def sAvailSocial (socialMediaData : Option SocialMediaM) : Bool :=
  socialMediaData.isSome

/-- Counting condition of the verified-Twitter signal (signal 10): it is
counted exactly when a verified Twitter account is present. -/
def sCountTwitterVerified (socialMediaData : Option SocialMediaM) : Bool :=
  match socialMediaData.bind (·.twitterMetrics) with
  | some t => t.verified
  | none => false

/-- Counting condition of the active-community signal (signal 11): it is
counted exactly when the community threshold is met. -/
def sCountCommunity (socialMediaData : Option SocialMediaM) : Bool :=
  match socialMediaData with
  | some s => hasActiveCommunity s
  | none => false

/-- Positive condition of signal 1 (age in [0.1, 30] days, when available). -/
def sPosAge (a : AnalysisIn) : Bool :=
  match a.transactionData with
  | some tx => decide (0.1 ≤ tx.timeSpan.daysActive ∧ tx.timeSpan.daysActive ≤ 30)
  | none => false

/-- Positive condition of signal 2 (≥ 5 transfers, when available). -/
def sPosTransfers (a : AnalysisIn) : Bool :=
  match a.transactionData with
  | some tx => decide (tx.transferPatterns.totalTransfers ≥ 5)
  | none => false

/-- Positive condition of signal 3 (truthy, non-placeholder name). -/
def sPosName (a : AnalysisIn) : Bool :=
  match a.tokenInfo with
  | some ti => strTruthy ti.name && decide (ti.name ≠ some "Unknown")
  | none => false

/-- Positive condition of signal 4 (liquidity > $100, when truthy). -/
def sPosLiquidity (dexData : Option DexDataM) : Bool :=
  match (dexData.bind (·.liquidity)).map (·.totalLiquidity) with
  | some v => decide (v ≠ 0) && decide (v > 100)
  | none => false

/-- Positive condition of signal 5 (no scam keyword; always evaluated). -/
def sPosNoScam (a : AnalysisIn) : Bool := ! scamNameIndicator a.tokenInfo

/-- Positive condition of signal 6 (creator risk ≠ HIGH, when available). -/
def sPosCreator (a : AnalysisIn) : Bool :=
  match a.creatorData with
  | some cd => decide (cd.riskAssessment.level ≠ .HIGH)
  | none => false

/-- Positive condition of signal 7 (24h volume > $10, when truthy). -/
def sPosVolume (dexData : Option DexDataM) : Bool :=
  match (dexData.bind (·.volume)).map (·.volume24h) with
  | some v => decide (v ≠ 0) && decide (v > 10)
  | none => false

/-- Positive condition of signal 8 (no rug pull detected, when available). -/
def sPosRug (dexData : Option DexDataM) : Bool :=
  match dexData.bind (·.rugPullRisk) with
  | some r => ! r.detected
  | none => false

/-- Positive condition of signal 9 (social score ≥ 50, when available). -/
def sPosSocial (socialMediaData : Option SocialMediaM) : Bool :=
  match socialMediaData with
  | some s => decide (s.overallScore ≥ 50)
  | none => false

/-- An unverified `VerificationResult` with zero confidence, as produced by
the aggregator when no source matches. -/
def overflowVerification : VerificationResult :=
  { isVerified := false
    verificationLevel := .UNVERIFIED
    confidence := 0
    reasons := []
    sources := [] }

/-- A fully adverse but well-formed analysis snapshot: live mint and freeze
authorities, brand-new token with no transfers, high-risk creator, and the
placeholder name. -/
def overflowAnalysis : AnalysisIn :=
  { mintInfo := some { mintRevoked := false, freezeRevoked := false }
    transactionData := some
      { timeSpan := { daysActive := 0 }
        transferPatterns := { totalTransfers := 0 } }
    creatorData := some { riskAssessment := { level := .HIGH } }
    tokenInfo := some { name := none } }

/-- An adverse DEX snapshot: rug pull detected, zero liquidity, suspicious
volume-to-liquidity pattern. -/
def overflowDex : DexDataM :=
  { rugPullRisk := some { detected := true, confidence := 90, indicators := [] }
    liquidity := some { totalLiquidity := 0 }
    volume := none
    volumeLiquidityAnalysis := some
      { ratio := 10, context := .SUSPICIOUS, explanation := "volume far above liquidity" }
    lockStatus := none
    pools := none }

theorem jsRound_mono {q r : ℚ} (h : q ≤ r) : jsRound q ≤ jsRound r := by
  unfold jsRound
  exact Int.floor_mono (by linarith)

theorem jsRound_eq (q : ℚ) (z : ℤ) (h1 : (z : ℚ) ≤ q + 1/2)
    (h2 : q + 1/2 < z + 1) : jsRound q = z := by
  unfold jsRound
  exact Int.floor_eq_iff.mpr ⟨h1, by exact_mod_cast h2⟩

theorem totalWeightOf_map_fulfilled (cvs : List CheckValue) :
    totalWeightOf (cvs.map SettledCheck.fulfilled) = (cvs.map (·.weight)).sum := by
  unfold totalWeightOf
  rw [List.map_map]
  rfl

theorem verifiedWeightOf_map_fulfilled (cvs : List CheckValue) :
    verifiedWeightOf (cvs.map SettledCheck.fulfilled)
      = ((cvs.filter (·.verified)).map (·.weight)).sum := by
  induction cvs with
  | nil => rfl
  | cons v tl ih =>
      simp only [List.map_cons, verifiedWeightOf, List.sum_cons,
        checkVerifiedWeight, List.filter_cons, List.map_map] at ih ⊢
      by_cases hv : v.verified <;> simp [hv, ih]

theorem levelVerifiedOf_spec (conf vw : ℚ) :
    ((levelVerifiedOf conf vw).1 = .OFFICIAL ↔ conf ≥ 80 ∧ vw ≥ 60)
    ∧ ((levelVerifiedOf conf vw).1 = .ESTABLISHED ↔
        ¬(conf ≥ 80 ∧ vw ≥ 60) ∧ (conf ≥ 60 ∧ vw ≥ 40))
    ∧ ((levelVerifiedOf conf vw).1 = .COMMUNITY ↔
        ¬(conf ≥ 80 ∧ vw ≥ 60) ∧ ¬(conf ≥ 60 ∧ vw ≥ 40) ∧ (conf ≥ 40 ∧ vw ≥ 20))
    ∧ ((levelVerifiedOf conf vw).1 = .UNVERIFIED ↔
        ¬(conf ≥ 80 ∧ vw ≥ 60) ∧ ¬(conf ≥ 60 ∧ vw ≥ 40) ∧ ¬(conf ≥ 40 ∧ vw ≥ 20))
    ∧ ((levelVerifiedOf conf vw).2 = true ↔ (levelVerifiedOf conf vw).1 ≠ .UNVERIFIED) := by
  by_cases h1 : conf ≥ 80 ∧ vw ≥ 60 <;>
    by_cases h2 : conf ≥ 60 ∧ vw ≥ 40 <;>
    by_cases h3 : conf ≥ 40 ∧ vw ≥ 20 <;>
    simp [levelVerifiedOf, h1, h2, h3]

/-- C1: a token identity in the `criticalTokens` allow-list makes the
aggregator short-circuit to the fixed OFFICIAL / 100-confidence result, for
every list of evidence checks and every metadata value. -/
theorem criticalToken_short_circuit (tokenAddress name : String)
    (checks : List SettledCheck) (metadata : Option TokenMetadataM)
    (h : criticalTokens tokenAddress = some name) :
    aggregateVerificationResults tokenAddress checks metadata =
      { isVerified := true
        verificationLevel := .OFFICIAL
        confidence := 100
        reasons := ["Critical infrastructure: " ++ name]
        sources := ["System Registry"] } := by
  simp [aggregateVerificationResults, h]

/-- Witness for C1: the wrapped-SOL mint, with an empty check list. -/
theorem criticalToken_short_circuit_witness :
    aggregateVerificationResults "So11111111111111111111111111111111111111112" [] none =
      { isVerified := true
        verificationLevel := .OFFICIAL
        confidence := 100
        reasons := ["Critical infrastructure: " ++ "Native SOL wrapper"]
        sources := ["System Registry"] } :=
  criticalToken_short_circuit _ "Native SOL wrapper" [] none rfl

/-- C2: for non-critical tokens the aggregator's confidence is
`round(100 · verifiedWeight / totalWeight)` over the fulfilled checks when
`totalWeight > 0` and `0` when `totalWeight = 0`; in particular one matched
weight-25 source next to a non-participating weight-0 source yields
confidence exactly 100. -/
theorem aggregate_confidence_formula (tokenAddress : String)
    (cvs : List CheckValue) (metadata : Option TokenMetadataM)
    (h : criticalTokens tokenAddress = none) :
    (((cvs.map (·.weight)).sum > 0 →
        (aggregateVerificationResults tokenAddress (cvs.map SettledCheck.fulfilled)
            metadata).confidence
          = ((jsRound (100 * ((cvs.filter (·.verified)).map (·.weight)).sum
                / (cvs.map (·.weight)).sum) : ℤ) : ℚ))
      ∧ ((cvs.map (·.weight)).sum = 0 →
        (aggregateVerificationResults tokenAddress (cvs.map SettledCheck.fulfilled)
            metadata).confidence = 0))
    ∧ (aggregateVerificationResults tokenAddress
        [.fulfilled { verified := true, weight := 25, source := "A", details := none },
         .fulfilled { verified := false, weight := 0, source := "B", details := none }]
        metadata).confidence = 100 := by
  have htw := totalWeightOf_map_fulfilled cvs
  have hvw := verifiedWeightOf_map_fulfilled cvs
  refine ⟨⟨?_, ?_⟩, ?_⟩
  · intro hpos
    simp only [aggregateVerificationResults, h]
    rw [htw, hvw, if_pos hpos]
    have harg : ((cvs.filter (·.verified)).map (·.weight)).sum / (cvs.map (·.weight)).sum * 100
        = 100 * ((cvs.filter (·.verified)).map (·.weight)).sum / (cvs.map (·.weight)).sum := by
      ring
    rw [harg]
  · intro hzero
    simp only [aggregateVerificationResults, h]
    rw [htw, hzero]
    norm_num
  · simp only [aggregateVerificationResults, h]
    have : totalWeightOf
        [.fulfilled { verified := true, weight := 25, source := "A", details := none },
         .fulfilled { verified := false, weight := 0, source := "B", details := none }] = 25 := by
      norm_num [totalWeightOf, checkWeight]
    rw [this]
    have : verifiedWeightOf
        [.fulfilled { verified := true, weight := 25, source := "A", details := none },
         .fulfilled { verified := false, weight := 0, source := "B", details := none }] = 25 := by
      norm_num [verifiedWeightOf, checkVerifiedWeight]
    rw [this]
    have h100 : jsRound ((100 : ℚ)) = 100 := by
      apply jsRound_eq <;> norm_num
    norm_num [h100]

/-- Witness for C2: a non-critical address with the empty check list. -/
theorem aggregate_confidence_formula_witness :
    (aggregateVerificationResults "TEST"
        [.fulfilled { verified := true, weight := 25, source := "A", details := none },
         .fulfilled { verified := false, weight := 0, source := "B", details := none }]
        none).confidence = 100 :=
  (aggregate_confidence_formula "TEST" [] none rfl).2

/-- C3: for non-critical tokens the verification level follows the
`confidence`/`verifiedWeight` threshold ladder (OFFICIAL ≥80/≥60,
ESTABLISHED ≥60/≥40, COMMUNITY ≥40/≥20, else UNVERIFIED), and `isVerified`
holds exactly when the level is not UNVERIFIED. -/
theorem aggregate_level_thresholds (tokenAddress : String)
    (checks : List SettledCheck) (metadata : Option TokenMetadataM)
    (h : criticalTokens tokenAddress = none) :
    ((aggregateVerificationResults tokenAddress checks metadata).verificationLevel = .OFFICIAL
      ↔ (aggregateVerificationResults tokenAddress checks metadata).confidence ≥ 80
          ∧ verifiedWeightOf checks ≥ 60)
    ∧ ((aggregateVerificationResults tokenAddress checks metadata).verificationLevel = .ESTABLISHED
      ↔ ¬((aggregateVerificationResults tokenAddress checks metadata).confidence ≥ 80
            ∧ verifiedWeightOf checks ≥ 60)
          ∧ ((aggregateVerificationResults tokenAddress checks metadata).confidence ≥ 60
              ∧ verifiedWeightOf checks ≥ 40))
    ∧ ((aggregateVerificationResults tokenAddress checks metadata).verificationLevel = .COMMUNITY
      ↔ ¬((aggregateVerificationResults tokenAddress checks metadata).confidence ≥ 80
            ∧ verifiedWeightOf checks ≥ 60)
          ∧ ¬((aggregateVerificationResults tokenAddress checks metadata).confidence ≥ 60
              ∧ verifiedWeightOf checks ≥ 40)
          ∧ ((aggregateVerificationResults tokenAddress checks metadata).confidence ≥ 40
              ∧ verifiedWeightOf checks ≥ 20))
    ∧ ((aggregateVerificationResults tokenAddress checks metadata).verificationLevel = .UNVERIFIED
      ↔ ¬((aggregateVerificationResults tokenAddress checks metadata).confidence ≥ 80
            ∧ verifiedWeightOf checks ≥ 60)
          ∧ ¬((aggregateVerificationResults tokenAddress checks metadata).confidence ≥ 60
              ∧ verifiedWeightOf checks ≥ 40)
          ∧ ¬((aggregateVerificationResults tokenAddress checks metadata).confidence ≥ 40
              ∧ verifiedWeightOf checks ≥ 20))
    ∧ ((aggregateVerificationResults tokenAddress checks metadata).isVerified = true
      ↔ (aggregateVerificationResults tokenAddress checks metadata).verificationLevel
          ≠ .UNVERIFIED) := by
  simp only [aggregateVerificationResults, h]
  exact levelVerifiedOf_spec _ _

/-- Witness for C3: with one matched weight-60 check the thresholds place
the token at OFFICIAL, hence verified. -/
theorem aggregate_level_thresholds_witness :
    (aggregateVerificationResults "TEST"
        [.fulfilled { verified := true, weight := 60, source := "A", details := none }]
        none).isVerified = true := by
  have h := aggregate_level_thresholds "TEST"
      [.fulfilled { verified := true, weight := 60, source := "A", details := none }] none rfl
  have h100 : jsRound ((100 : ℚ)) = 100 := by
    apply jsRound_eq <;> norm_num
  have hcrit : criticalTokens "TEST" = none := rfl
  have hc : (aggregateVerificationResults "TEST"
      [.fulfilled { verified := true, weight := 60, source := "A", details := none }]
      none).confidence = 100 := by
    simp only [aggregateVerificationResults, hcrit]
    norm_num [totalWeightOf, verifiedWeightOf, checkWeight, checkVerifiedWeight, h100]
  have hvw : verifiedWeightOf
      [SettledCheck.fulfilled { verified := true, weight := 60, source := "A", details := none }]
        = 60 := by
    norm_num [verifiedWeightOf, checkVerifiedWeight]
  have hlevel := h.1.mpr ⟨by rw [hc]; norm_num, by rw [hvw]⟩
  rw [h.2.2.2.2, hlevel]
  simp

/-- C8: for non-critical tokens, permuting the evidence-check list changes
neither the aggregated confidence nor the verification level. -/
theorem aggregate_perm_invariant (tokenAddress : String)
    (metadata : Option TokenMetadataM) (checks1 checks2 : List SettledCheck)
    (h : criticalTokens tokenAddress = none) (hp : checks1.Perm checks2) :
    (aggregateVerificationResults tokenAddress checks1 metadata).confidence =
      (aggregateVerificationResults tokenAddress checks2 metadata).confidence
    ∧ (aggregateVerificationResults tokenAddress checks1 metadata).verificationLevel =
      (aggregateVerificationResults tokenAddress checks2 metadata).verificationLevel := by
  have htw : totalWeightOf checks1 = totalWeightOf checks2 := by
    unfold totalWeightOf
    exact (hp.map checkWeight).sum_eq
  have hvw : verifiedWeightOf checks1 = verifiedWeightOf checks2 := by
    unfold verifiedWeightOf
    exact (hp.map checkVerifiedWeight).sum_eq
  simp only [aggregateVerificationResults, h]
  rw [htw, hvw]
  exact ⟨rfl, rfl⟩

/-- A matched weight-25 check used by the order-independence witness. -/
def permCheckA : SettledCheck :=
  .fulfilled { verified := true, weight := 25, source := "A", details := none }

/-- A failed weight-0 check used by the order-independence witness. -/
def permCheckB : SettledCheck :=
  .fulfilled { verified := false, weight := 0, source := "B", details := none }

/-- Witness for C8: swapping two concrete checks. -/
theorem aggregate_perm_invariant_witness :
    (aggregateVerificationResults "TEST" [permCheckA, permCheckB] none).confidence =
      (aggregateVerificationResults "TEST" [permCheckB, permCheckA] none).confidence
    ∧ (aggregateVerificationResults "TEST" [permCheckA, permCheckB] none).verificationLevel =
      (aggregateVerificationResults "TEST" [permCheckB, permCheckA] none).verificationLevel :=
  aggregate_perm_invariant "TEST" none [permCheckA, permCheckB] [permCheckB, permCheckA]
    rfl (List.Perm.swap permCheckB permCheckA [])

theorem riskLevelFor_verified_ne_critical (vr : VerificationResult) (s : ℚ)
    (hv : vr.isVerified = true) : riskLevelFor vr s ≠ .CRITICAL := by
  simp only [riskLevelFor, hv]
  split_ifs <;> simp

/-- C9: the score-to-level mapping is verification dependent: OFFICIAL
tokens reach MEDIUM iff score ≥ 25 and never HIGH/CRITICAL; ESTABLISHED and
COMMUNITY use the intermediate 35/20 and 45/30 bands; unverified tokens use
the 80/60/40 bands. -/
theorem riskLevel_threshold_table (vr : VerificationResult) (s : ℚ) :
    (vr.isVerified = true → vr.verificationLevel = .OFFICIAL →
      ((riskLevelFor vr s = .MEDIUM ↔ s ≥ 25)
        ∧ (riskLevelFor vr s = .LOW ↔ s < 25)
        ∧ riskLevelFor vr s ≠ .HIGH ∧ riskLevelFor vr s ≠ .CRITICAL))
    ∧ (vr.isVerified = true → vr.verificationLevel = .ESTABLISHED →
      ((riskLevelFor vr s = .HIGH ↔ s ≥ 35)
        ∧ (riskLevelFor vr s = .MEDIUM ↔ 20 ≤ s ∧ s < 35)
        ∧ (riskLevelFor vr s = .LOW ↔ s < 20)
        ∧ riskLevelFor vr s ≠ .CRITICAL))
    ∧ (vr.isVerified = true → vr.verificationLevel = .COMMUNITY →
      ((riskLevelFor vr s = .HIGH ↔ s ≥ 45)
        ∧ (riskLevelFor vr s = .MEDIUM ↔ 30 ≤ s ∧ s < 45)
        ∧ (riskLevelFor vr s = .LOW ↔ s < 30)
        ∧ riskLevelFor vr s ≠ .CRITICAL))
    ∧ (vr.isVerified = false →
      ((riskLevelFor vr s = .CRITICAL ↔ s ≥ 80)
        ∧ (riskLevelFor vr s = .HIGH ↔ 60 ≤ s ∧ s < 80)
        ∧ (riskLevelFor vr s = .MEDIUM ↔ 40 ≤ s ∧ s < 60)
        ∧ (riskLevelFor vr s = .LOW ↔ s < 40))) := by
  refine ⟨?_, ?_, ?_, ?_⟩
  · intro hv hl
    simp only [riskLevelFor, hv, hl]
    by_cases h25 : s ≥ 25 <;> simp [h25] <;> push_neg at h25 <;> linarith
  · intro hv hl
    simp only [riskLevelFor, hv, hl]
    by_cases h35 : s ≥ 35 <;> by_cases h20 : s ≥ 20 <;> simp [h35, h20] <;>
      push_neg at * <;> first
      | linarith
      | exact ⟨by linarith, by linarith⟩
  · intro hv hl
    simp only [riskLevelFor, hv, hl]
    by_cases h45 : s ≥ 45 <;> by_cases h30 : s ≥ 30 <;> simp [h45, h30] <;>
      push_neg at * <;> first
      | linarith
      | exact ⟨by linarith, by linarith⟩
  · intro hv
    simp only [riskLevelFor, hv]
    by_cases h80 : s ≥ 80 <;> by_cases h60 : s ≥ 60 <;> by_cases h40 : s ≥ 40 <;>
      simp [h80, h60, h40] <;> push_neg at * <;> first
      | linarith
      | exact ⟨by linarith, by linarith⟩

/-- Witness for C9: an unverified result at score 90 maps to CRITICAL. -/
theorem riskLevel_threshold_table_witness :
    riskLevelFor
      { isVerified := false, verificationLevel := .UNVERIFIED, confidence := 0,
        reasons := [], sources := [] } 90 = .CRITICAL :=
  ((riskLevel_threshold_table
      { isVerified := false, verificationLevel := .UNVERIFIED, confidence := 0,
        reasons := [], sources := [] } 90).2.2.2 rfl).1.mpr (by norm_num)

/-- C10: for any verified token — at any level — the engine never assigns
CRITICAL, however large the accumulated score is. -/
theorem engine_verified_never_critical (a : AnalysisIn) (vr : VerificationResult)
    (dexData : Option DexDataM) (socialMediaData : Option SocialMediaM)
    (hv : vr.isVerified = true) :
    (calculateDynamicRiskScore a vr dexData socialMediaData).riskLevel ≠ .CRITICAL := by
  simp only [calculateDynamicRiskScore]
  exact riskLevelFor_verified_ne_critical vr _ hv

/-- Witness for C10: an OFFICIAL-verified result on an empty snapshot. -/
theorem engine_verified_never_critical_witness :
    (calculateDynamicRiskScore
      { mintInfo := none, transactionData := none, creatorData := none, tokenInfo := none }
      { isVerified := true, verificationLevel := .OFFICIAL, confidence := 100,
        reasons := [], sources := [] }
      none none).riskLevel ≠ .CRITICAL :=
  engine_verified_never_critical _ _ _ _ rfl

/-- C6: when any awaited analysis step throws, `analyzeToken` returns the
fixed fail-safe assessment — riskScore 75, level HIGH, the single factor
"Technical analysis failed" — instead of propagating the failure. -/
theorem failSafe_on_error (s : FetchSteps) (h : runAnalysisSteps s = .error ()) :
    analyzeToken s =
      { riskScore := 75
        riskLevel := .HIGH
        riskFactors := ["Technical analysis failed"]
        safetyFactors := []
        recommendations := [] } := by
  simp [analyzeToken, h, failSafeAssessment]

/-- Witness for C6: the metadata fetch throws, every later step would have
succeeded. -/
theorem failSafe_on_error_witness :
    analyzeToken
      { tokenInfo := .error ()
        mintInfo := .ok none
        verification := .ok overflowVerification
        whitelistInfo := .ok ()
        transactionData := .ok none
        dexData := .ok none
        socialMediaData := .ok none } =
      { riskScore := 75
        riskLevel := .HIGH
        riskFactors := ["Technical analysis failed"]
        safetyFactors := []
        recommendations := [] } :=
  failSafe_on_error _ rfl

theorem heuristicCounts_overflow :
    heuristicCounts overflowAnalysis (some overflowDex) none = (1, 6) := by
  norm_num [heuristicCounts, signal1Age, signal2Transfers, signal3Name,
    signal4Liquidity, signal5Scam, signal6Creator, signal7Volume, signal8Rug,
    signal9Social, signal10Twitter, signal11Community,
    overflowAnalysis, overflowDex, scamNameIndicator, strTruthy]

/-- C4 (evidence): the final score is not clamped to 100.  On a fully
adverse unverified snapshot the engine accumulates
30 + 30 + 25 + 20 + 15 + 15 + 10 + 25 + 20 + 20 and returns 210. -/
theorem riskScore_not_clamped :
    (calculateDynamicRiskScore overflowAnalysis overflowVerification
        (some overflowDex) none).riskScore = 210 := by
  have hconf : ¬ ((heuristicConfidence ((1 : ℕ), (6 : ℕ))) ≥ 60) := by
    norm_num [heuristicConfidence]
  have hflag : isRecentlyLaunchedLegitimateToken overflowAnalysis overflowVerification
      (some overflowDex) none = false := by
    simp only [isRecentlyLaunchedLegitimateToken, heuristicCounts_overflow]
    simp [decide_eq_false hconf]
  have h210 : jsRound ((210 : ℚ)) = 210 := by
    apply jsRound_eq <;> norm_num
  simp only [calculateDynamicRiskScore, hflag]
  norm_num [verificationBlock, mintAuthorityBlock,
    freezeAuthorityBlock, tokenAgeBlock, transactionVolumeBlock, creatorBehaviorBlock,
    metadataQualityBlock, rugPullBlock, lowLiquidityBlock, volumeLiquidityBlock,
    strongLiquidityBlock, lockStatusBlock, poolsBlock,
    overflowAnalysis, overflowVerification, overflowDex, riskWeights,
    calculateVerificationWeight, levelBaseWeight, strTruthy, max_def, h210]

theorem signal1Age_eq (a : AnalysisIn) (c : ℕ × ℕ) :
    signal1Age a c = (c.1 + (sPosAge a).toNat, c.2 + (sAvailAge a).toNat) := by
  unfold signal1Age sPosAge sAvailAge
  cases a.transactionData <;> (try simp) <;> (try split_ifs) <;> simp_all

theorem signal2Transfers_eq (a : AnalysisIn) (c : ℕ × ℕ) :
    signal2Transfers a c = (c.1 + (sPosTransfers a).toNat, c.2 + (sAvailTransfers a).toNat) := by
  unfold signal2Transfers sPosTransfers sAvailTransfers
  cases a.transactionData <;> (try simp) <;> (try split_ifs) <;> simp_all

theorem signal3Name_eq (a : AnalysisIn) (c : ℕ × ℕ) :
    signal3Name a c = (c.1 + (sPosName a).toNat, c.2 + (sAvailName a).toNat) := by
  unfold signal3Name sPosName sAvailName
  cases a.tokenInfo <;> (try simp) <;> (try split_ifs) <;> simp_all <;> try assumption

theorem signal4Liquidity_eq (dexData : Option DexDataM) (c : ℕ × ℕ) :
    signal4Liquidity dexData c
      = (c.1 + (sPosLiquidity dexData).toNat, c.2 + (sAvailLiquidity dexData).toNat) := by
  unfold signal4Liquidity sPosLiquidity sAvailLiquidity
  cases (dexData.bind (·.liquidity)).map (·.totalLiquidity) <;> (try simp) <;> (try split_ifs) <;> simp_all

theorem signal5Scam_eq (a : AnalysisIn) (c : ℕ × ℕ) :
    signal5Scam a c = (c.1 + (sPosNoScam a).toNat, c.2 + 1) := by
  unfold signal5Scam sPosNoScam
  cases scamNameIndicator a.tokenInfo <;> simp

theorem signal6Creator_eq (a : AnalysisIn) (c : ℕ × ℕ) :
    signal6Creator a c = (c.1 + (sPosCreator a).toNat, c.2 + (sAvailCreator a).toNat) := by
  unfold signal6Creator sPosCreator sAvailCreator
  cases a.creatorData <;> (try simp) <;> (try split_ifs) <;> simp_all

theorem signal7Volume_eq (dexData : Option DexDataM) (c : ℕ × ℕ) :
    signal7Volume dexData c
      = (c.1 + (sPosVolume dexData).toNat, c.2 + (sAvailVolume dexData).toNat) := by
  unfold signal7Volume sPosVolume sAvailVolume
  cases (dexData.bind (·.volume)).map (·.volume24h) <;> (try simp) <;> (try split_ifs) <;> simp_all

theorem signal8Rug_eq (dexData : Option DexDataM) (c : ℕ × ℕ) :
    signal8Rug dexData c
      = (c.1 + (sPosRug dexData).toNat, c.2 + (sAvailRug dexData).toNat) := by
  unfold signal8Rug sPosRug sAvailRug
  cases dexData.bind (·.rugPullRisk) <;> (try simp) <;> (try split_ifs) <;> simp_all

theorem signal9Social_eq (socialMediaData : Option SocialMediaM) (c : ℕ × ℕ) :
    signal9Social socialMediaData c
      = (c.1 + (sPosSocial socialMediaData).toNat, c.2 + (sAvailSocial socialMediaData).toNat) := by
  unfold signal9Social sPosSocial sAvailSocial
  cases socialMediaData <;> (try simp) <;> (try split_ifs) <;> simp_all

theorem signal10Twitter_eq (socialMediaData : Option SocialMediaM) (c : ℕ × ℕ) :
    signal10Twitter socialMediaData c
      = (c.1 + (sCountTwitterVerified socialMediaData).toNat,
         c.2 + (sCountTwitterVerified socialMediaData).toNat) := by
  unfold signal10Twitter sCountTwitterVerified
  cases socialMediaData.bind (·.twitterMetrics) with
  | none => simp
  | some t => cases ht : t.verified <;> simp [ht]

theorem signal11Community_eq (socialMediaData : Option SocialMediaM) (c : ℕ × ℕ) :
    signal11Community socialMediaData c
      = (c.1 + (sCountCommunity socialMediaData).toNat,
         c.2 + (sCountCommunity socialMediaData).toNat) := by
  unfold signal11Community sCountCommunity
  cases socialMediaData with
  | none => simp
  | some s => cases hs : hasActiveCommunity s <;> simp [hs]

theorem heuristicConfidence_ge_iff (c : ℕ × ℕ) :
    heuristicConfidence c ≥ 60 ↔ 100 * (c.1 : ℚ) / (c.2 : ℚ) ≥ 60 := by
  rcases c with ⟨p, t⟩
  unfold heuristicConfidence
  by_cases ht : t > 0
  · rw [if_pos ht]
    have harg : ((p : ℚ) / (t : ℚ)) * 100 = 100 * (p : ℚ) / (t : ℚ) := by ring
    rw [harg]
  · rw [if_neg ht]
    have ht0 : t = 0 := by omega
    subst ht0
    norm_num

/-- C5 (counterexample): on a context with no data available at all the
classifier still counts a signal — `(positiveSignals, totalSignals)` comes
back `(1, 1)`, not `(0, 0)`: the scam-keyword signal increments
`totalSignals` (and here `positiveSignals`) although no token data backs
it. -/
theorem heuristicCounts_counts_without_data :
    heuristicCounts
      { mintInfo := none, transactionData := none, creatorData := none, tokenInfo := none }
      none none = (1, 1) := by
  simp [heuristicCounts, signal1Age, signal2Transfers, signal3Name, signal4Liquidity,
    signal5Scam, signal6Creator, signal7Volume, signal8Rug, signal9Social,
    signal10Twitter, signal11Community, scamNameIndicator]

/-- C5 (amended): every signal except the scam-keyword signal (always
counted) and the active-community signal (counted exactly when the
threshold is met) contributes to `totalSignals` exactly when its data is
available, with the matching positive conditions; and the flag is returned
true exactly when age is available and ≤ 30 days, at least 4 signals were
counted, and `100 · positiveSignals / totalSignals ≥ 60`. -/
theorem heuristic_signal_accounting (a : AnalysisIn) (dexData : Option DexDataM)
    (socialMediaData : Option SocialMediaM) :
    heuristicCounts a dexData socialMediaData =
      ((sPosAge a).toNat + (sPosTransfers a).toNat + (sPosName a).toNat
        + (sPosLiquidity dexData).toNat + (sPosNoScam a).toNat + (sPosCreator a).toNat
        + (sPosVolume dexData).toNat + (sPosRug dexData).toNat
        + (sPosSocial socialMediaData).toNat + (sCountTwitterVerified socialMediaData).toNat
        + (sCountCommunity socialMediaData).toNat,
       (sAvailAge a).toNat + (sAvailTransfers a).toNat + (sAvailName a).toNat
        + (sAvailLiquidity dexData).toNat + 1 + (sAvailCreator a).toNat
        + (sAvailVolume dexData).toNat + (sAvailRug dexData).toNat
        + (sAvailSocial socialMediaData).toNat + (sCountTwitterVerified socialMediaData).toNat
        + (sCountCommunity socialMediaData).toNat)
    ∧ ∀ vr : VerificationResult,
        (isRecentlyLaunchedLegitimateToken a vr dexData socialMediaData = true ↔
          ((∃ tx, a.transactionData = some tx ∧ tx.timeSpan.daysActive ≤ 30)
            ∧ (heuristicCounts a dexData socialMediaData).2 ≥ 4
            ∧ 100 * ((heuristicCounts a dexData socialMediaData).1 : ℚ)
                / ((heuristicCounts a dexData socialMediaData).2 : ℚ) ≥ 60)) := by
  constructor
  · simp only [heuristicCounts, signal11Community_eq, signal10Twitter_eq,
      signal9Social_eq, signal8Rug_eq, signal7Volume_eq, signal6Creator_eq,
      signal5Scam_eq, signal4Liquidity_eq, signal3Name_eq, signal2Transfers_eq,
      signal1Age_eq, Prod.mk.injEq]
    omega
  · intro vr
    cases htx : a.transactionData with
    | none => simp [isRecentlyLaunchedLegitimateToken, htx]
    | some tx =>
        simp only [isRecentlyLaunchedLegitimateToken, htx, Bool.and_eq_true,
          decide_eq_true_eq, heuristicConfidence_ge_iff]
        constructor
        · rintro ⟨⟨h1, h2⟩, h3⟩
          exact ⟨⟨tx, rfl, h1⟩, h2, h3⟩
        · rintro ⟨⟨tx', htx', h1⟩, h2, h3⟩
          cases htx'
          exact ⟨⟨h1, h2⟩, h3⟩

theorem heuristic_mintInfo_irrel (a : AnalysisIn) (m : Option MintInfoM)
    (vr : VerificationResult) (d : Option DexDataM) (s : Option SocialMediaM) :
    isRecentlyLaunchedLegitimateToken { a with mintInfo := m } vr d s
      = isRecentlyLaunchedLegitimateToken a vr d s := rfl

theorem tokenAgeBlock_mintInfo_irrel (a : AnalysisIn) (m : Option MintInfoM)
    (vr : VerificationResult) (r : Bool) (acc : ScoreAcc) :
    tokenAgeBlock { a with mintInfo := m } vr r acc = tokenAgeBlock a vr r acc := rfl

theorem transactionVolumeBlock_mintInfo_irrel (a : AnalysisIn) (m : Option MintInfoM)
    (vr : VerificationResult) (r : Bool) (acc : ScoreAcc) :
    transactionVolumeBlock { a with mintInfo := m } vr r acc
      = transactionVolumeBlock a vr r acc := rfl

theorem creatorBehaviorBlock_mintInfo_irrel (a : AnalysisIn) (m : Option MintInfoM)
    (vr : VerificationResult) (r : Bool) (acc : ScoreAcc) :
    creatorBehaviorBlock { a with mintInfo := m } vr r acc
      = creatorBehaviorBlock a vr r acc := rfl

theorem metadataQualityBlock_mintInfo_irrel (a : AnalysisIn) (m : Option MintInfoM)
    (vr : VerificationResult) (r : Bool) (acc : ScoreAcc) :
    metadataQualityBlock { a with mintInfo := m } vr r acc
      = metadataQualityBlock a vr r acc := rfl

theorem freezeAuthorityBlock_mint_toggle_irrel (a : AnalysisIn) (mi : MintInfoM)
    (b : Bool) (vr : VerificationResult) (r : Bool) (acc : ScoreAcc) :
    freezeAuthorityBlock { a with mintInfo := some { mi with mintRevoked := b } } vr r acc
      = freezeAuthorityBlock { a with mintInfo := some mi } vr r acc := rfl

theorem mintAuthorityBlock_freeze_toggle_irrel (a : AnalysisIn) (mi : MintInfoM)
    (b : Bool) (vr : VerificationResult) (r : Bool) (acc : ScoreAcc) :
    mintAuthorityBlock { a with mintInfo := some { mi with freezeRevoked := b } } vr r acc
      = mintAuthorityBlock { a with mintInfo := some mi } vr r acc := rfl

theorem freezeAuthorityBlock_score_mono (a : AnalysisIn) (vr : VerificationResult)
    (r : Bool) {acc acc' : ScoreAcc} (h : acc.score ≤ acc'.score) :
    (freezeAuthorityBlock a vr r acc).score ≤ (freezeAuthorityBlock a vr r acc').score := by
  unfold freezeAuthorityBlock
  cases a.mintInfo <;> (try simp) <;> (try split_ifs) <;> simp_all

theorem tokenAgeBlock_score_mono (a : AnalysisIn) (vr : VerificationResult)
    (r : Bool) {acc acc' : ScoreAcc} (h : acc.score ≤ acc'.score) :
    (tokenAgeBlock a vr r acc).score ≤ (tokenAgeBlock a vr r acc').score := by
  unfold tokenAgeBlock
  cases a.transactionData <;> (try simp) <;> (try split_ifs) <;> simp_all

theorem transactionVolumeBlock_score_mono (a : AnalysisIn) (vr : VerificationResult)
    (r : Bool) {acc acc' : ScoreAcc} (h : acc.score ≤ acc'.score) :
    (transactionVolumeBlock a vr r acc).score
      ≤ (transactionVolumeBlock a vr r acc').score := by
  unfold transactionVolumeBlock
  cases a.transactionData <;> (try simp) <;> (try split_ifs) <;> simp_all

theorem creatorBehaviorBlock_score_mono (a : AnalysisIn) (vr : VerificationResult)
    (r : Bool) {acc acc' : ScoreAcc} (h : acc.score ≤ acc'.score) :
    (creatorBehaviorBlock a vr r acc).score ≤ (creatorBehaviorBlock a vr r acc').score := by
  unfold creatorBehaviorBlock
  cases a.creatorData <;> (try simp) <;> (try split_ifs) <;> simp_all

theorem metadataQualityBlock_score_mono (a : AnalysisIn) (vr : VerificationResult)
    (r : Bool) {acc acc' : ScoreAcc} (h : acc.score ≤ acc'.score) :
    (metadataQualityBlock a vr r acc).score ≤ (metadataQualityBlock a vr r acc').score := by
  unfold metadataQualityBlock
  cases a.tokenInfo <;> (try simp) <;> (try split_ifs) <;> simp_all

theorem rugPullBlock_score_mono (d : Option DexDataM) (vr : VerificationResult)
    {acc acc' : ScoreAcc} (h : acc.score ≤ acc'.score) :
    (rugPullBlock d vr acc).score ≤ (rugPullBlock d vr acc').score := by
  unfold rugPullBlock
  cases d.bind (·.rugPullRisk) <;> (try simp) <;> (try split_ifs) <;> simp_all

theorem lowLiquidityBlock_score_mono (d : Option DexDataM) (vr : VerificationResult)
    {acc acc' : ScoreAcc} (h : acc.score ≤ acc'.score) :
    (lowLiquidityBlock d vr acc).score ≤ (lowLiquidityBlock d vr acc').score := by
  unfold lowLiquidityBlock
  cases (d.bind (·.liquidity)).map (·.totalLiquidity) <;>
    (try simp) <;> (try split_ifs) <;> simp_all

theorem volumeLiquidityBlock_score_mono (d : Option DexDataM) (vr : VerificationResult)
    {acc acc' : ScoreAcc} (h : acc.score ≤ acc'.score) :
    (volumeLiquidityBlock d vr acc).score ≤ (volumeLiquidityBlock d vr acc').score := by
  unfold volumeLiquidityBlock
  cases d.bind (·.volumeLiquidityAnalysis) with
  | some vla =>
      obtain ⟨ratio, ctx, expl⟩ := vla
      cases ctx <;> (try simp) <;> (try split_ifs) <;> (try simp_all) <;> linarith
  | none =>
      cases (d.bind (·.volume)).map (·.volume24h) <;>
        (try simp) <;> (try split_ifs) <;> simp_all

theorem strongLiquidityBlock_score_mono (d : Option DexDataM)
    {acc acc' : ScoreAcc} (h : acc.score ≤ acc'.score) :
    (strongLiquidityBlock d acc).score ≤ (strongLiquidityBlock d acc').score := by
  unfold strongLiquidityBlock
  cases (d.bind (·.liquidity)).map (·.totalLiquidity) <;>
    (try simp) <;> (try split_ifs) <;> simp_all

theorem lockStatusBlock_score_mono (d : Option DexDataM)
    {acc acc' : ScoreAcc} (h : acc.score ≤ acc'.score) :
    (lockStatusBlock d acc).score ≤ (lockStatusBlock d acc').score := by
  unfold lockStatusBlock
  cases d.bind (·.lockStatus) <;> (try simp) <;> (try split_ifs) <;> simp_all

theorem poolsBlock_score_mono (d : Option DexDataM)
    {acc acc' : ScoreAcc} (h : acc.score ≤ acc'.score) :
    (poolsBlock d acc).score ≤ (poolsBlock d acc').score := by
  unfold poolsBlock
  cases d.bind (·.pools) <;> (try simp) <;> (try split_ifs) <;> simp_all

theorem mintAuthorityBlock_toggle (a : AnalysisIn) (mi : MintInfoM)
    (vr : VerificationResult) (r : Bool) (acc : ScoreAcc) :
    (mintAuthorityBlock { a with mintInfo := some { mi with mintRevoked := true } }
        vr r acc).score
      ≤ (mintAuthorityBlock { a with mintInfo := some { mi with mintRevoked := false } }
        vr r acc).score := by
  simp only [mintAuthorityBlock]
  simp
  split_ifs <;> norm_num [riskWeights]

theorem freezeAuthorityBlock_toggle (a : AnalysisIn) (mi : MintInfoM)
    (vr : VerificationResult) (r : Bool) (acc : ScoreAcc) :
    (freezeAuthorityBlock { a with mintInfo := some { mi with freezeRevoked := true } }
        vr r acc).score
      ≤ (freezeAuthorityBlock { a with mintInfo := some { mi with freezeRevoked := false } }
        vr r acc).score := by
  simp only [freezeAuthorityBlock]
  simp
  split_ifs <;> norm_num [riskWeights]

theorem chainAfterMint_score_mono (a : AnalysisIn) (vr : VerificationResult)
    (dexData : Option DexDataM) (r : Bool) {acc acc' : ScoreAcc}
    (h : acc.score ≤ acc'.score) :
    (poolsBlock dexData (lockStatusBlock dexData (strongLiquidityBlock dexData
      (volumeLiquidityBlock dexData vr (lowLiquidityBlock dexData vr (rugPullBlock dexData vr
        (metadataQualityBlock a vr r (creatorBehaviorBlock a vr r (transactionVolumeBlock a vr r
          (tokenAgeBlock a vr r (freezeAuthorityBlock a vr r acc))))))))))).score
      ≤ (poolsBlock dexData (lockStatusBlock dexData (strongLiquidityBlock dexData
      (volumeLiquidityBlock dexData vr (lowLiquidityBlock dexData vr (rugPullBlock dexData vr
        (metadataQualityBlock a vr r (creatorBehaviorBlock a vr r (transactionVolumeBlock a vr r
          (tokenAgeBlock a vr r (freezeAuthorityBlock a vr r acc'))))))))))).score := by
  apply poolsBlock_score_mono
  apply lockStatusBlock_score_mono
  apply strongLiquidityBlock_score_mono
  apply volumeLiquidityBlock_score_mono
  apply lowLiquidityBlock_score_mono
  apply rugPullBlock_score_mono
  apply metadataQualityBlock_score_mono
  apply creatorBehaviorBlock_score_mono
  apply transactionVolumeBlock_score_mono
  apply tokenAgeBlock_score_mono
  exact freezeAuthorityBlock_score_mono a vr r h

theorem chainAfterFreeze_score_mono (a : AnalysisIn) (vr : VerificationResult)
    (dexData : Option DexDataM) (r : Bool) {acc acc' : ScoreAcc}
    (h : acc.score ≤ acc'.score) :
    (poolsBlock dexData (lockStatusBlock dexData (strongLiquidityBlock dexData
      (volumeLiquidityBlock dexData vr (lowLiquidityBlock dexData vr (rugPullBlock dexData vr
        (metadataQualityBlock a vr r (creatorBehaviorBlock a vr r (transactionVolumeBlock a vr r
          (tokenAgeBlock a vr r acc)))))))))).score
      ≤ (poolsBlock dexData (lockStatusBlock dexData (strongLiquidityBlock dexData
      (volumeLiquidityBlock dexData vr (lowLiquidityBlock dexData vr (rugPullBlock dexData vr
        (metadataQualityBlock a vr r (creatorBehaviorBlock a vr r (transactionVolumeBlock a vr r
          (tokenAgeBlock a vr r acc')))))))))).score := by
  apply poolsBlock_score_mono
  apply lockStatusBlock_score_mono
  apply strongLiquidityBlock_score_mono
  apply volumeLiquidityBlock_score_mono
  apply lowLiquidityBlock_score_mono
  apply rugPullBlock_score_mono
  apply metadataQualityBlock_score_mono
  apply creatorBehaviorBlock_score_mono
  apply transactionVolumeBlock_score_mono
  exact tokenAgeBlock_score_mono a vr r h

theorem toggled_calc_le_mint (aT aF : AnalysisIn) (vr : VerificationResult)
    (dexData : Option DexDataM) (socialMediaData : Option SocialMediaM)
    (hflag : isRecentlyLaunchedLegitimateToken aT vr dexData socialMediaData
      = isRecentlyLaunchedLegitimateToken aF vr dexData socialMediaData)
    (hage : ∀ r acc, tokenAgeBlock aT vr r acc = tokenAgeBlock aF vr r acc)
    (htx : ∀ r acc, transactionVolumeBlock aT vr r acc = transactionVolumeBlock aF vr r acc)
    (hcr : ∀ r acc, creatorBehaviorBlock aT vr r acc = creatorBehaviorBlock aF vr r acc)
    (hmeta : ∀ r acc, metadataQualityBlock aT vr r acc = metadataQualityBlock aF vr r acc)
    (hfr : ∀ r acc, freezeAuthorityBlock aT vr r acc = freezeAuthorityBlock aF vr r acc)
    (hmint : ∀ r acc,
      (mintAuthorityBlock aT vr r acc).score ≤ (mintAuthorityBlock aF vr r acc).score) :
    (calculateDynamicRiskScore aT vr dexData socialMediaData).riskScore
      ≤ (calculateDynamicRiskScore aF vr dexData socialMediaData).riskScore := by
  simp only [calculateDynamicRiskScore, hflag, hage, htx, hcr, hmeta, hfr]
  apply jsRound_mono
  by_cases hgate : (¬ (vr.isVerified = true) ∨ vr.verificationLevel ≠ VerificationLevel.OFFICIAL)
  · rw [if_pos hgate, if_pos hgate]
    exact chainAfterMint_score_mono aF vr dexData _ (hmint _ _)
  · rw [if_neg hgate, if_neg hgate]

theorem toggled_calc_le_freeze (aT aF : AnalysisIn) (vr : VerificationResult)
    (dexData : Option DexDataM) (socialMediaData : Option SocialMediaM)
    (hflag : isRecentlyLaunchedLegitimateToken aT vr dexData socialMediaData
      = isRecentlyLaunchedLegitimateToken aF vr dexData socialMediaData)
    (hage : ∀ r acc, tokenAgeBlock aT vr r acc = tokenAgeBlock aF vr r acc)
    (htx : ∀ r acc, transactionVolumeBlock aT vr r acc = transactionVolumeBlock aF vr r acc)
    (hcr : ∀ r acc, creatorBehaviorBlock aT vr r acc = creatorBehaviorBlock aF vr r acc)
    (hmeta : ∀ r acc, metadataQualityBlock aT vr r acc = metadataQualityBlock aF vr r acc)
    (hmint : ∀ r acc, mintAuthorityBlock aT vr r acc = mintAuthorityBlock aF vr r acc)
    (hfr : ∀ r acc,
      (freezeAuthorityBlock aT vr r acc).score ≤ (freezeAuthorityBlock aF vr r acc).score) :
    (calculateDynamicRiskScore aT vr dexData socialMediaData).riskScore
      ≤ (calculateDynamicRiskScore aF vr dexData socialMediaData).riskScore := by
  simp only [calculateDynamicRiskScore, hflag, hage, htx, hcr, hmeta, hmint]
  apply jsRound_mono
  by_cases hgate : (¬ (vr.isVerified = true) ∨ vr.verificationLevel ≠ VerificationLevel.OFFICIAL)
  · rw [if_pos hgate, if_pos hgate]
    exact chainAfterFreeze_score_mono aF vr dexData _ (hfr _ _)
  · rw [if_neg hgate, if_neg hgate]

/-- C7: holding everything else fixed, revoking the mint authority
(mintRevoked false → true) cannot increase the returned risk score, and
un-revoking the freeze authority (freezeRevoked true → false) cannot
decrease it. -/
theorem authority_flags_monotone (a : AnalysisIn) (mi : MintInfoM)
    (vr : VerificationResult) (dexData : Option DexDataM)
    (socialMediaData : Option SocialMediaM) :
    (calculateDynamicRiskScore { a with mintInfo := some { mi with mintRevoked := true } }
        vr dexData socialMediaData).riskScore
      ≤ (calculateDynamicRiskScore { a with mintInfo := some { mi with mintRevoked := false } }
        vr dexData socialMediaData).riskScore
    ∧ (calculateDynamicRiskScore { a with mintInfo := some { mi with freezeRevoked := true } }
        vr dexData socialMediaData).riskScore
      ≤ (calculateDynamicRiskScore { a with mintInfo := some { mi with freezeRevoked := false } }
        vr dexData socialMediaData).riskScore := by
  constructor
  · exact toggled_calc_le_mint _ _ vr dexData socialMediaData rfl
      (fun r acc => rfl) (fun r acc => rfl) (fun r acc => rfl) (fun r acc => rfl)
      (fun r acc => rfl) (fun r acc => mintAuthorityBlock_toggle a mi vr r acc)
  · exact toggled_calc_le_freeze _ _ vr dexData socialMediaData rfl
      (fun r acc => rfl) (fun r acc => rfl) (fun r acc => rfl) (fun r acc => rfl)
      (fun r acc => rfl) (fun r acc => freezeAuthorityBlock_toggle a mi vr r acc)
